import Mathlib

/-!
Shallow embedding of the fullscreen-detection engine of
src/xidlehook-core/src/modules/xcb.rs.

Modelling conventions:
- Raw X property payloads are byte sequences, modelled as List Nat.
- Format-32 payloads are reinterpreted as 32-bit words, four bytes per
  word in little-endian order, mirroring the pointer reinterpretation of
  the reply buffer in the source; a trailing partial word is dropped,
  mirroring the flooring division of the byte length by the element size
  performed when the reply value slice is produced.
- Window titles and class strings stay byte sequences: the source passes
  the raw bytes through an unchecked UTF-8 reinterpretation, so string
  comparisons in the source are byte-for-byte comparisons.
- Every server round trip (tree query, each of the five per-window
  property fetches, the current-desktop fetch) is modelled as an Except
  value stored in the tree node it would be issued against, so that the
  embedding replays the fetches in source order and propagates the first
  error exactly as the question-mark operator does in the source.
- The window tree of one screen is the inductive WinTree; a detection
  call on one screen is queryFullscreen, one call per recursion root as
  in the source. get_fullscreen folds queryFullscreen over the screens
  of the connection setup.
-/

/-- Error raised by a failed server round trip, kept abstract as a code. -/
abbrev XErr := Nat

deriving instance DecidableEq for Except

/-- Reinterpretation of a raw byte payload as 32-bit words, as done for
the atom-list, WM_STATE word-list and desktop-index payloads; a trailing
partial word is dropped. -/
def decodeWords : List Nat → List Nat
  | b0 :: b1 :: b2 :: b3 :: rest =>
      (b0 + b1 * 256 + b2 * 65536 + b3 * 16777216) :: decodeWords rest
  | _ => []

/-- Splitting of a byte sequence at its first zero byte, mirroring
split_once of the class string on the null character: the zero byte
itself belongs to neither part. -/
def splitFirstZero : List Nat → Option (List Nat × List Nat)
  | [] => none
  | 0 :: rest => some ([], rest)
  | b :: rest => (splitFirstZero rest).map (fun p => (b :: p.1, p.2))

/-- Removal of one trailing zero byte when present, mirroring
strip_suffix with the null character on the class component. -/
def stripTrailingZero (l : List Nat) : List Nat :=
  if l.getLast? = some 0 then l.dropLast else l

/-- Decoding of the raw WM_CLASS payload into the instance component and
the class component: split at the first zero byte, strip one trailing
zero byte from the second part, and fall back to two empty components
when no zero byte occurs. -/
def decodeWmClass (bytes : List Nat) : List Nat × List Nat :=
  match splitFirstZero bytes with
  | some p => (p.1, stripTrailingZero p.2)
  | none => ([], [])

/-- The three optional exception lists passed to query_fullscreen:
exceptions_wm_class1, exceptions_wm_class2 and exceptions_wm_name.
Entries are byte sequences standing for the configured strings. -/
structure Filters where
  class1 : Option (List (List Nat))
  class2 : Option (List (List Nat))
  titles : Option (List (List Nat))
deriving DecidableEq

/-- Raw payloads of the five per-window property fetches after all five
round trips succeeded. -/
structure RawValues where
  netWmState : List Nat
  wmState : List Nat
  netWmDesktop : List Nat
  wmName : List Nat
  wmClass : List Nat
deriving DecidableEq

/-- Outcomes of the round trips that can be issued against one window:
the five property fetches, and the current-desktop fetch issued when the
window serves as the root argument of a query_fullscreen call. -/
structure RawProps where
  netWmState : Except XErr (List Nat)
  wmState : Except XErr (List Nat)
  netWmDesktop : Except XErr (List Nat)
  wmName : Except XErr (List Nat)
  wmClass : Except XErr (List Nat)
  netCurrentDesktop : Except XErr (List Nat)
deriving DecidableEq

/-- The five per-window property round trips awaited in source order:
_NET_WM_STATE, WM_STATE, _NET_WM_DESKTOP, WM_NAME, WM_CLASS; the first
failing one aborts with its error. -/
def fetchAll (p : RawProps) : Except XErr RawValues := do
  let s ← p.netWmState
  let w ← p.wmState
  let d ← p.netWmDesktop
  let n ← p.wmName
  let c ← p.wmClass
  pure ⟨s, w, d, n, c⟩

/-- The fullscreen predicate evaluated on one visited window, a direct
transcription of the condition of the if statement in query_fullscreen:
fullscreen atom present in the decoded _NET_WM_STATE list, first decoded
WM_STATE word present and nonzero, decoded desktop list nonempty, active
desktop list nonempty, first desktop word equal to first active word,
and the decoded name, instance component and class component absent from
the respective exception list when one was supplied. -/
def windowMatches (fs : Nat) (f : Filters) (activeDesktop : List Nat) (v : RawValues) : Bool :=
  let value_net_wm_state := decodeWords v.netWmState
  let value_wm_state := decodeWords v.wmState
  let value_desktop := decodeWords v.netWmDesktop
  let value_wm_name := v.wmName
  let value_wm_class := decodeWmClass v.wmClass
  value_net_wm_state.any (fun atom => atom == fs)
  && ((value_wm_state.head?.map (fun s => s != 0)).getD false)
  && decide (0 < value_desktop.length)
  && decide (0 < activeDesktop.length)
  && (value_desktop.headD 0 == activeDesktop.headD 0)
  && ((f.titles.map (fun v2 => !v2.contains value_wm_name)).getD true)
  && ((f.class1.map (fun v2 => !v2.contains value_wm_class.1)).getD true)
  && ((f.class2.map (fun v2 => !v2.contains value_wm_class.2)).getD true)

mutual

/-- A window of the tree of one screen: its identifier, the outcomes of
the round trips that can be issued against it, the outcome of the tree
query listing its children (none meaning success), and its children in
listing order. -/
inductive WinTree : Type where
  | node (wid : Nat) (props : RawProps) (treeErr : Option XErr) (children : WinForest)
deriving DecidableEq

/-- A list of sibling windows in listing order. -/
inductive WinForest : Type where
  | nil
  | cons (t : WinTree) (rest : WinForest)
deriving DecidableEq

end

/-- Round-trip outcomes attached to a window. -/
def WinTree.props : WinTree → RawProps
  | .node _ p _ _ => p

/-- Identifier of a window. -/
def WinTree.wid : WinTree → Nat
  | .node w _ _ _ => w

mutual

/-- One query_fullscreen call with the given window as the root
argument: await the tree query, fetch _NET_CURRENT_DESKTOP on the root
itself, then scan the children. Errors abort with the failing round
trip. -/
def queryFullscreen (fs : Nat) (f : Filters) : WinTree → Except XErr Bool
  | .node _ props terr children =>
    match terr with
    | some e => .error e
    | none =>
      match props.netCurrentDesktop with
      | .error e => .error e
      | .ok ab => qfChildren fs f (decodeWords ab) children

/-- The loop over the children of the current root: fetch the five
properties of the child, test the predicate, return true on a match,
otherwise recurse into the child as a new query_fullscreen root and
continue with the next sibling only when the recursion reports false. -/
def qfChildren (fs : Nat) (f : Filters) (activeW : List Nat) : WinForest → Except XErr Bool
  | .nil => .ok false
  | .cons c rest =>
    match fetchAll c.props with
    | .error e => .error e
    | .ok raw =>
      if windowMatches fs f activeW raw then .ok true
      else
        match queryFullscreen fs f c with
        | .error e => .error e
        | .ok true => .ok true
        | .ok false => qfChildren fs f activeW rest

end

mutual

/-- Windows on which the predicate is evaluated during a
queryFullscreen call, in evaluation order. -/
def evalTrace (fs : Nat) (f : Filters) : WinTree → List Nat
  | .node _ props terr children =>
    match terr with
    | some _ => []
    | none =>
      match props.netCurrentDesktop with
      | .error _ => []
      | .ok ab => traceChildren fs f (decodeWords ab) children

/-- Predicate-evaluation order along the child loop: a child is
recorded when its five fetches succeeded, then the loop stops on a
match, on an error, or on a positive recursive answer. -/
def traceChildren (fs : Nat) (f : Filters) (activeW : List Nat) : WinForest → List Nat
  | .nil => []
  | .cons c rest =>
    match fetchAll c.props with
    | .error _ => []
    | .ok raw =>
      c.wid :: (if windowMatches fs f activeW raw then []
        else evalTrace fs f c ++
          (match queryFullscreen fs f c with
           | .ok false => traceChildren fs f activeW rest
           | _ => []))

end

mutual

/-- Number of _NET_CURRENT_DESKTOP round trips issued during a
queryFullscreen call: one per recursion root reached after its tree
query succeeded. -/
def cdCount (fs : Nat) (f : Filters) : WinTree → Nat
  | .node _ props terr children =>
    match terr with
    | some _ => 0
    | none =>
      1 + (match props.netCurrentDesktop with
           | .error _ => 0
           | .ok ab => cdCountChildren fs f (decodeWords ab) children)

/-- Current-desktop round trips issued while scanning the child loop,
following the same control flow as qfChildren. -/
def cdCountChildren (fs : Nat) (f : Filters) (activeW : List Nat) : WinForest → Nat
  | .nil => 0
  | .cons c rest =>
    match fetchAll c.props with
    | .error _ => 0
    | .ok raw =>
      if windowMatches fs f activeW raw then 0
      else cdCount fs f c +
        (match queryFullscreen fs f c with
         | .ok false => cdCountChildren fs f activeW rest
         | _ => 0)

end

mutual

/-- Number of windows of a tree, the root included. -/
def winCount : WinTree → Nat
  | .node _ _ _ children => 1 + winForestCount children

/-- Number of windows of a forest. -/
def winForestCount : WinForest → Nat
  | .nil => 0
  | .cons c rest => winCount c + winForestCount rest

end

mutual

/-- Modelled from the spec wording of the claim about the active
desktop: descend into a subtree while comparing every window against
the active-desktop value fetched once at the top-level root, without
re-fetching it from descendant windows. -/
def qfOnceSub (fs : Nat) (f : Filters) (activeW : List Nat) : WinTree → Except XErr Bool
  | .node _ _ terr children =>
    match terr with
    | some e => .error e
    | none => qfOnceChildren fs f activeW children

/-- Child loop of the fetch-once variant: identical to qfChildren
except that recursion keeps the top-level active-desktop value. -/
def qfOnceChildren (fs : Nat) (f : Filters) (activeW : List Nat) : WinForest → Except XErr Bool
  | .nil => .ok false
  | .cons c rest =>
    match fetchAll c.props with
    | .error e => .error e
    | .ok raw =>
      if windowMatches fs f activeW raw then .ok true
      else
        match qfOnceSub fs f activeW c with
        | .error e => .error e
        | .ok true => .ok true
        | .ok false => qfOnceChildren fs f activeW rest

end

/-- Modelled from the spec wording of the claim about the active
desktop: a detection call that fetches _NET_CURRENT_DESKTOP exactly
once, on the screen root, and compares that one value at every depth. -/
def queryFullscreenOnce (fs : Nat) (f : Filters) : WinTree → Except XErr Bool
  | .node _ props terr children =>
    match terr with
    | some e => .error e
    | none =>
      match props.netCurrentDesktop with
      | .error e => .error e
      | .ok ab => qfOnceChildren fs f (decodeWords ab) children

/-- The get_fullscreen loop over the screens exposed by the connection
setup, in setup order: first screen answering true wins, errors
propagate, false needs every screen to answer false. -/
def get_fullscreen (fs : Nat) (f : Filters) : List WinTree → Except XErr Bool
  | [] => .ok false
  | s :: rest =>
    match queryFullscreen fs f s with
    | .error e => .error e
    | .ok true => .ok true
    | .ok false => get_fullscreen fs f rest

/-- Rust duration value, seconds plus subsecond nanoseconds. -/
structure Duration where
  secs : Nat
  nanos : Nat
deriving DecidableEq

/-- Duration built from milliseconds as from_millis does. -/
def durationFromMillis (ms : Nat) : Duration :=
  ⟨ms / 1000, (ms % 1000) * 1000000⟩

/-- Whole milliseconds represented by a duration. -/
def durationAsMillis (d : Duration) : Nat :=
  d.secs * 1000 + d.nanos / 1000000

/-- Total nanoseconds represented by a duration. -/
def durationAsNanos (d : Duration) : Nat :=
  d.secs * 1000000000 + d.nanos

/-- The get_idle body: await the screensaver idle-info round trip and
convert its millisecond count with from_millis; the widening conversion
of the 32-bit count to 64 bits is lossless so the count reaches
from_millis unchanged. -/
def get_idle (reply : Except XErr Nat) : Except XErr Duration :=
  match reply with
  | .error e => .error e
  | .ok ms => .ok (durationFromMillis ms)

/-- Example decoded property payloads of a window that satisfies every
condition of the predicate against active desktop word 2: fullscreen
atom 5 in _NET_WM_STATE, WM_STATE word 1, desktop word 2, a two-byte
title and the class bytes of instance mpv, class M. -/
def matchingValues : RawValues :=
  ⟨[5, 0, 0, 0], [1, 0, 0, 0], [2, 0, 0, 0], [7, 8], [109, 112, 118, 0, 77, 0]⟩

/-- Round-trip outcomes of a window whose five fetches succeed with the
payloads of matchingValues and whose current-desktop fetch finds no
property. -/
def matchingProps : RawProps :=
  ⟨.ok [5, 0, 0, 0], .ok [1, 0, 0, 0], .ok [2, 0, 0, 0], .ok [7, 8],
   .ok [109, 112, 118, 0, 77, 0], .ok []⟩

/-- Round-trip outcomes of a window on which every fetch succeeds with
an empty payload, standing for a window carrying none of the
properties. -/
def okProps : RawProps :=
  ⟨.ok [], .ok [], .ok [], .ok [], .ok [], .ok []⟩

/-- Round-trip outcomes of a screen root whose current-desktop fetch
answers desktop word 2. -/
def rootProps : RawProps :=
  ⟨.ok [], .ok [], .ok [], .ok [], .ok [], .ok [2, 0, 0, 0]⟩

/-- Decoded payloads of a window carrying none of the properties. -/
def emptyValues : RawValues := ⟨[], [], [], [], []⟩

/-- Example subtree for the traversal claims: window 2 carries no
property of interest itself but its current-desktop fetch answers
desktop word 2, and its child window 3 matches against that value. -/
def exA : WinTree :=
  .node 2 rootProps none (.cons (.node 3 matchingProps none .nil) .nil)

/-- Example sibling for the traversal claims: window 4 matches against
active desktop word 2. -/
def exB : WinTree := .node 4 matchingProps none .nil

/-- Example screen for the traversal claims: its root fetches active
desktop word 2 and lists the children window 2 and window 4. -/
def exRoot3 : WinTree := .node 1 rootProps none (.cons exA (.cons exB .nil))

/-- Example subtree for the active-desktop claim: window 2 carries no
properties, so its own current-desktop fetch answers an empty payload,
and its child window 3 would match against desktop word 2. -/
def exA2 : WinTree :=
  .node 2 okProps none (.cons (.node 3 matchingProps none .nil) .nil)

/-- Example screen for the active-desktop claim: the root fetches
active desktop word 2 and its only child is the subtree of window 2. -/
def exRoot2 : WinTree := .node 1 rootProps none (.cons exA2 .nil)

/-- Example screen containing a matching window: the root fetches
active desktop word 2 and lists the matching window 11. -/
def screenWithMatch : WinTree :=
  .node 10 rootProps none (.cons (.node 11 matchingProps none .nil) .nil)

/-- Example screen with a bare root: no children, no active desktop. -/
def screenEmptyTree : WinTree := .node 20 okProps none .nil

/-- Characterization of the fullscreen predicate as a conjunction of
plain propositions, one per condition of the source if statement. -/
theorem windowMatches_iff (fs : Nat) (f : Filters) (a : List Nat) (v : RawValues) :
    windowMatches fs f a v = true ↔
      (fs ∈ decodeWords v.netWmState
       ∧ (∃ s, (decodeWords v.wmState).head? = some s ∧ s ≠ 0)
       ∧ decodeWords v.netWmDesktop ≠ []
       ∧ a ≠ []
       ∧ (decodeWords v.netWmDesktop).headD 0 = a.headD 0
       ∧ (∀ l, f.titles = some l → v.wmName ∉ l)
       ∧ (∀ l, f.class1 = some l → (decodeWmClass v.wmClass).1 ∉ l)
       ∧ (∀ l, f.class2 = some l → (decodeWmClass v.wmClass).2 ∉ l)) := by
  cases ht : f.titles <;> cases hc1 : f.class1 <;> cases hc2 : f.class2 <;>
    cases hh : (decodeWords v.wmState).head? <;>
      simp [windowMatches, ht, hc1, hc2, hh, List.contains, List.elem_eq_mem,
        List.length_pos, and_assoc]

/-- C1: for every visited window the fullscreen predicate holds exactly
when the decoded _NET_WM_STATE atoms contain the fullscreen atom, the
first decoded WM_STATE word exists and is nonzero, the decoded desktop
list and the active-desktop list are nonempty, their first values agree,
and the decoded title, instance component and class component are absent
from the respective exception list when one was supplied. -/
theorem c1_fullscreen_predicate (fs : Nat) (f : Filters) (a : List Nat) (v : RawValues) :
    windowMatches fs f a v = true ↔
      (fs ∈ decodeWords v.netWmState
       ∧ (∃ s, (decodeWords v.wmState).head? = some s ∧ s ≠ 0)
       ∧ decodeWords v.netWmDesktop ≠ []
       ∧ a ≠ []
       ∧ (decodeWords v.netWmDesktop).headD 0 = a.headD 0
       ∧ (∀ l, f.titles = some l → v.wmName ∉ l)
       ∧ (∀ l, f.class1 = some l → (decodeWmClass v.wmClass).1 ∉ l)
       ∧ (∀ l, f.class2 = some l → (decodeWmClass v.wmClass).2 ∉ l)) :=
  windowMatches_iff fs f a v

/-- Concrete instance of C1: a window carrying the fullscreen atom,
mapped state 1 and desktop 2 matches against active desktop 2 with no
exception lists supplied. -/
theorem c1_witness :
    windowMatches 5 ⟨none, none, none⟩ [2] matchingValues = true :=
  (c1_fullscreen_predicate 5 ⟨none, none, none⟩ [2] matchingValues).mpr (by
    refine ⟨by decide, ⟨1, by decide, by decide⟩, by decide, by decide, by decide,
      ?_, ?_, ?_⟩ <;> exact fun l h => Option.noConfusion h)

/-- C7: a window whose decoded desktop list is empty never matches, and
a window compared against an empty active-desktop list never matches;
both are plain false answers of the predicate, not errors. -/
theorem c7_empty_desktop_policy (fs : Nat) (f : Filters) (a : List Nat) (v : RawValues) :
    (decodeWords v.netWmDesktop = [] → windowMatches fs f a v = false)
    ∧ (a = [] → windowMatches fs f a v = false) := by
  constructor
  · intro h
    rw [Bool.eq_false_iff]
    intro hw
    exact ((windowMatches_iff fs f a v).mp hw).2.2.1 h
  · intro h
    rw [Bool.eq_false_iff]
    intro hw
    exact ((windowMatches_iff fs f a v).mp hw).2.2.2.1 h

/-- Concrete instance of C7: with an empty desktop payload, or an empty
active-desktop list, the otherwise matching window does not match. -/
theorem c7_witness :
    windowMatches 5 ⟨none, none, none⟩ [2] ⟨[5, 0, 0, 0], [1, 0, 0, 0], [], [7, 8], []⟩ = false
    ∧ windowMatches 5 ⟨none, none, none⟩ [] matchingValues = false :=
  ⟨(c7_empty_desktop_policy 5 ⟨none, none, none⟩ [2]
      ⟨[5, 0, 0, 0], [1, 0, 0, 0], [], [7, 8], []⟩).1 rfl,
   (c7_empty_desktop_policy 5 ⟨none, none, none⟩ [] matchingValues).2 rfl⟩

/-- C10: exception matching is whole-string equality of the decoded
attribute with a list entry: an entry equal to the attribute forces a
false answer, an absent attribute makes the supplied list behave exactly
like an absent list, and in particular supplied empty lists behave like
no lists at all. -/
theorem c10_exception_matching (fs : Nat) (a : List Nat) (v : RawValues)
    (c1e c2e nme : Option (List (List Nat))) :
    (windowMatches fs ⟨some [], some [], some []⟩ a v
       = windowMatches fs ⟨none, none, none⟩ a v)
    ∧ (∀ l, v.wmName ∈ l → windowMatches fs ⟨c1e, c2e, some l⟩ a v = false)
    ∧ (∀ l, v.wmName ∉ l → windowMatches fs ⟨c1e, c2e, some l⟩ a v
        = windowMatches fs ⟨c1e, c2e, none⟩ a v)
    ∧ (∀ l, (decodeWmClass v.wmClass).1 ∈ l → windowMatches fs ⟨some l, c2e, nme⟩ a v = false)
    ∧ (∀ l, (decodeWmClass v.wmClass).1 ∉ l → windowMatches fs ⟨some l, c2e, nme⟩ a v
        = windowMatches fs ⟨none, c2e, nme⟩ a v)
    ∧ (∀ l, (decodeWmClass v.wmClass).2 ∈ l → windowMatches fs ⟨c1e, some l, nme⟩ a v = false)
    ∧ (∀ l, (decodeWmClass v.wmClass).2 ∉ l → windowMatches fs ⟨c1e, some l, nme⟩ a v
        = windowMatches fs ⟨c1e, none, nme⟩ a v) := by
  refine ⟨?_, fun l h => ?_, fun l h => ?_, fun l h => ?_, fun l h => ?_,
    fun l h => ?_, fun l h => ?_⟩
  · simp [windowMatches, List.contains]
  all_goals simp [windowMatches, List.contains, List.elem_eq_mem, h]

/-- Concrete instance of C10: a title-exception entry equal to the full
decoded title blocks the match, while an entry that is only a proper
prefix of the title leaves the answer identical to having no title
list. -/
theorem c10_witness :
    windowMatches 5 ⟨none, none, some [[7, 8]]⟩ [2] matchingValues = false
    ∧ windowMatches 5 ⟨none, none, some [[7]]⟩ [2] matchingValues
        = windowMatches 5 ⟨none, none, none⟩ [2] matchingValues :=
  ⟨(c10_exception_matching 5 [2] matchingValues none none none).2.1 [[7, 8]] (by decide),
   (c10_exception_matching 5 [2] matchingValues none none none).2.2.1 [[7]] (by decide)⟩

/-- Splitting finds nothing in a byte sequence without a zero byte. -/
theorem splitFirstZero_eq_none (bytes : List Nat) (h : 0 ∉ bytes) :
    splitFirstZero bytes = none := by
  induction bytes with
  | nil => rfl
  | cons b rest ih =>
    cases b with
    | zero => exact absurd (List.mem_cons_self 0 rest) h
    | succ n =>
      have h2 : 0 ∉ rest := fun hr => h (List.mem_cons_of_mem _ hr)
      simp [splitFirstZero, ih h2]

/-- Splitting cuts exactly at the first zero byte. -/
theorem splitFirstZero_append (a b : List Nat) (h : 0 ∉ a) :
    splitFirstZero (a ++ 0 :: b) = some (a, b) := by
  induction a with
  | nil => rfl
  | cons x rest ih =>
    cases x with
    | zero => exact absurd (List.mem_cons_self 0 rest) h
    | succ n =>
      have h2 : 0 ∉ rest := fun hr => h (List.mem_cons_of_mem _ hr)
      simp [splitFirstZero, ih h2]

/-- C4: the raw WM_CLASS bytes split at the first zero byte into the
instance and class components, one trailing zero byte of the class
component is stripped when present, the firefox example decodes to its
two components, and a payload without any zero byte decodes to two
empty components without error. -/
theorem c4_wm_class_decoding :
    decodeWmClass [102, 105, 114, 101, 102, 111, 120, 0, 70, 105, 114, 101, 102, 111, 120, 0]
      = ([102, 105, 114, 101, 102, 111, 120], [70, 105, 114, 101, 102, 111, 120])
    ∧ (∀ bytes : List Nat, 0 ∉ bytes → decodeWmClass bytes = ([], []))
    ∧ (∀ a b : List Nat, 0 ∉ a → decodeWmClass (a ++ 0 :: b) = (a, stripTrailingZero b))
    ∧ (∀ b : List Nat, stripTrailingZero (b ++ [0]) = b)
    ∧ (∀ b : List Nat, b.getLast? ≠ some 0 → stripTrailingZero b = b) := by
  refine ⟨by decide, fun bytes h => ?_, fun a b h => ?_, fun b => ?_, fun b h => ?_⟩
  · simp [decodeWmClass, splitFirstZero_eq_none bytes h]
  · simp [decodeWmClass, splitFirstZero_append a b h]
  · simp [stripTrailingZero]
  · simp [stripTrailingZero, h]

/-- Concrete instance of C4: bytes without a zero byte give empty
components, and the class bytes of instance mpv, class M split into the
two components with the trailing zero stripped. -/
theorem c4_witness :
    decodeWmClass [1, 2, 3] = ([], [])
    ∧ decodeWmClass ([109, 112, 118] ++ 0 :: [77, 0]) = ([109, 112, 118], stripTrailingZero [77, 0]) :=
  ⟨c4_wm_class_decoding.2.1 [1, 2, 3] (by decide),
   c4_wm_class_decoding.2.2.1 [109, 112, 118] [77, 0] (by decide)⟩

/-- C5 as stated is false on the code: a five-byte payload is not a
multiple of the four-byte element size, yet the decoded word sequence is
not empty; the reinterpretation floors instead of validating, as the
source slices the reply buffer without a multiple-of-size check and
also passes text bytes through an unchecked UTF-8 reinterpretation. -/
theorem c5_counterexample :
    ([1, 0, 0, 0, 9] : List Nat).length % 4 ≠ 0
    ∧ decodeWords [1, 0, 0, 0, 9] ≠ []
    ∧ decodeWords [1, 0, 0, 0, 9] = [1] := by
  refine ⟨by decide, by decide, by decide⟩

/-- Word count of the reinterpretation is the floored byte count. -/
theorem decodeWords_length : ∀ bytes : List Nat, (decodeWords bytes).length = bytes.length / 4
  | [] => rfl
  | [_] => by simp [decodeWords]
  | [_, _] => by simp [decodeWords]
  | [_, _, _] => by simp [decodeWords]
  | b0 :: b1 :: b2 :: b3 :: rest => by
      have ih := decodeWords_length rest
      simp only [decodeWords, List.length_cons, ih]
      omega

/-- C5 amended: decoding is total and never fatal, but it does not
validate the payload length against the element size; the word decoder
yields exactly one word per four bytes with any trailing partial word
dropped, so a malformed length floors instead of collapsing to the
empty sequence. -/
theorem c5_amended_flooring_decode : ∀ bytes : List Nat,
    (decodeWords bytes).length = bytes.length / 4 :=
  decodeWords_length

/-- C9: get_idle converts the raw millisecond count exactly, with the
returned duration representing precisely that many milliseconds and
nanoseconds, and it fails exactly when the idle-info round trip
fails. -/
theorem c9_idle_exact (r : Except XErr Nat) :
    (∀ ms, r = .ok ms → get_idle r = .ok (durationFromMillis ms)
        ∧ durationAsMillis (durationFromMillis ms) = ms
        ∧ durationAsNanos (durationFromMillis ms) = ms * 1000000)
    ∧ (∀ e, r = .error e → get_idle r = .error e) := by
  constructor
  · intro ms h
    subst h
    refine ⟨rfl, ?_, ?_⟩ <;> simp [durationAsMillis, durationAsNanos, durationFromMillis] <;> omega
  · intro e h
    subst h
    rfl

/-- Concrete instance of C9: 1500 milliseconds convert exactly and an
error code 7 from the round trip is returned as that error. -/
theorem c9_witness :
    get_idle (.ok 1500) = .ok (durationFromMillis 1500)
    ∧ durationAsMillis (durationFromMillis 1500) = 1500
    ∧ durationAsNanos (durationFromMillis 1500) = 1500 * 1000000
    ∧ get_idle (.error 7) = .error 7 :=
  ⟨((c9_idle_exact (.ok 1500)).1 1500 rfl).1,
   ((c9_idle_exact (.ok 1500)).1 1500 rfl).2.1,
   ((c9_idle_exact (.ok 1500)).1 1500 rfl).2.2,
   (c9_idle_exact (.error 7)).2 7 rfl⟩

/-- C6: every failing round trip aborts the detection call with exactly
that error and no boolean answer: a failing tree query, a failing
current-desktop fetch, a failing property fetch of the child under
scrutiny, or an error surfacing from the recursive call each yield that
error as the whole result, independently of the remaining siblings, so
a failure is never coerced into a false answer and no partial result is
produced. -/
theorem c6_error_propagation (fs : Nat) (f : Filters) :
    (∀ w p e ch, queryFullscreen fs f (.node w p (some e) ch) = .error e)
    ∧ (∀ w p ch e, p.netCurrentDesktop = .error e →
        queryFullscreen fs f (.node w p none ch) = .error e)
    ∧ (∀ activeW c rest e, fetchAll c.props = .error e →
        qfChildren fs f activeW (.cons c rest) = .error e)
    ∧ (∀ activeW c rest raw e, fetchAll c.props = .ok raw →
        windowMatches fs f activeW raw = false →
        queryFullscreen fs f c = .error e →
        qfChildren fs f activeW (.cons c rest) = .error e) := by
  refine ⟨fun w p e ch => rfl, fun w p ch e h => ?_, fun activeW c rest e h => ?_,
    fun activeW c rest raw e h1 h2 h3 => ?_⟩
  · simp [queryFullscreen, h]
  · simp [qfChildren, h]
  · simp [qfChildren, h1, h2, h3]

/-- Concrete instance of C6: a failed tree query, a failed
current-desktop fetch, a failed first property fetch of the first child
even though the next sibling would match, and an error from the
recursive call each surface as exactly that error. -/
theorem c6_witness :
    queryFullscreen 5 ⟨none, none, none⟩ (.node 1 okProps (some 9) .nil) = .error 9
    ∧ queryFullscreen 5 ⟨none, none, none⟩
        (.node 1 ⟨.ok [], .ok [], .ok [], .ok [], .ok [], .error 4⟩ none .nil) = .error 4
    ∧ qfChildren 5 ⟨none, none, none⟩ [2]
        (.cons (.node 2 ⟨.error 3, .ok [], .ok [], .ok [], .ok [], .ok []⟩ none .nil)
          (.cons exB .nil)) = .error 3
    ∧ qfChildren 5 ⟨none, none, none⟩ [2]
        (.cons (.node 2 ⟨.ok [], .ok [], .ok [], .ok [], .ok [], .error 6⟩ none .nil)
          (.cons exB .nil)) = .error 6 :=
  ⟨(c6_error_propagation 5 ⟨none, none, none⟩).1 1 okProps 9 .nil,
   (c6_error_propagation 5 ⟨none, none, none⟩).2.1 1
     ⟨.ok [], .ok [], .ok [], .ok [], .ok [], .error 4⟩ .nil 4 rfl,
   (c6_error_propagation 5 ⟨none, none, none⟩).2.2.1 [2]
     (.node 2 ⟨.error 3, .ok [], .ok [], .ok [], .ok [], .ok []⟩ none .nil) (.cons exB .nil) 3 rfl,
   (c6_error_propagation 5 ⟨none, none, none⟩).2.2.2 [2]
     (.node 2 ⟨.ok [], .ok [], .ok [], .ok [], .ok [], .error 6⟩ none .nil) (.cons exB .nil)
     ⟨[], [], [], [], []⟩ 6 rfl (by decide) rfl⟩

/-- C8: get_fullscreen walks the screens of the setup in order, a
screen answering true makes the whole call answer true whatever the
later screens hold, a false answer means every screen answered false,
and a true answer means some screen answered true with every earlier
screen answering false. -/
theorem c8_screen_iteration (fs : Nat) (f : Filters) (screens : List WinTree) :
    (∀ s rest, queryFullscreen fs f s = .ok true → get_fullscreen fs f (s :: rest) = .ok true)
    ∧ (get_fullscreen fs f screens = .ok false ↔
        ∀ s ∈ screens, queryFullscreen fs f s = .ok false)
    ∧ (get_fullscreen fs f screens = .ok true ↔
        ∃ pre s post, screens = pre ++ s :: post ∧ queryFullscreen fs f s = .ok true
          ∧ ∀ x ∈ pre, queryFullscreen fs f x = .ok false) := by
  refine ⟨fun s rest h => by simp [get_fullscreen, h], ?_, ?_⟩
  · induction screens with
    | nil => simp [get_fullscreen]
    | cons c rest ih =>
      cases hq : queryFullscreen fs f c with
      | error e => simp [get_fullscreen, hq]
      | ok b => cases b <;> simp [get_fullscreen, hq, ih]
  · induction screens with
    | nil =>
      constructor
      · intro h
        exact absurd h (by simp [get_fullscreen])
      · rintro ⟨pre, s, post, hdec, -, -⟩
        exact absurd hdec (by cases pre <;> simp)
    | cons c rest ih =>
      cases hq : queryFullscreen fs f c with
      | error e =>
        constructor
        · intro h
          rw [show get_fullscreen fs f (c :: rest) = .error e by simp [get_fullscreen, hq]] at h
          exact Except.noConfusion h
        · rintro ⟨pre, s, post, hdec, hs, hall⟩
          cases pre with
          | nil =>
            injection hdec with h1 h2
            subst h1
            rw [hq] at hs
            exact Except.noConfusion hs
          | cons p pre2 =>
            injection hdec with h1 h2
            subst h1
            have hc := hall c (List.mem_cons_self _ _)
            rw [hq] at hc
            exact Except.noConfusion hc
      | ok b =>
        cases b with
        | true =>
          constructor
          · intro _
            exact ⟨[], c, rest, rfl, hq, by simp⟩
          · intro _
            simp [get_fullscreen, hq]
        | false =>
          constructor
          · intro h
            rw [show get_fullscreen fs f (c :: rest) = get_fullscreen fs f rest by
              simp [get_fullscreen, hq]] at h
            obtain ⟨pre, s, post, hdec, hs, hall⟩ := ih.mp h
            refine ⟨c :: pre, s, post, by simp [hdec], hs, ?_⟩
            intro x hx
            rcases List.mem_cons.mp hx with h1 | h2
            · exact h1 ▸ hq
            · exact hall x h2
          · rintro ⟨pre, s, post, hdec, hs, hall⟩
            rw [show get_fullscreen fs f (c :: rest) = get_fullscreen fs f rest by
              simp [get_fullscreen, hq]]
            apply ih.mpr
            cases pre with
            | nil =>
              injection hdec with h1 h2
              subst h1
              rw [hq] at hs
              exact absurd hs (by simp)
            | cons p pre2 =>
              injection hdec with h1 h2
              subst h1
              exact ⟨pre2, s, post, h2, hs, fun x hx => hall x (List.mem_cons_of_mem _ hx)⟩

/-- Concrete instance of C8: with a matchless first screen and a second
screen containing a matching window, the call answers true. -/
theorem c8_witness :
    get_fullscreen 5 ⟨none, none, none⟩ [screenEmptyTree, screenWithMatch] = .ok true :=
  (c8_screen_iteration 5 ⟨none, none, none⟩ [screenEmptyTree, screenWithMatch]).2.2.mpr
    ⟨[screenEmptyTree], screenWithMatch, [], rfl, by decide, by decide⟩

/-- C3: with children A then B under the root, where the five fetches
of A succeed, A itself does not satisfy the predicate, the recursive
walk into A reports a match, and B would also satisfy the predicate,
the call answers true, the predicate-evaluation trace is A followed by
the windows evaluated inside the subtree of A, and the predicate is
never evaluated on B. -/
theorem c3_traversal_order (fs : Nat) (f : Filters) (rw : Nat) (rp : RawProps)
    (acds : List Nat) (A B : WinTree) (rawA rawB : RawValues)
    (h1 : rp.netCurrentDesktop = .ok acds)
    (h2 : fetchAll A.props = .ok rawA)
    (h3 : windowMatches fs f (decodeWords acds) rawA = false)
    (h4 : queryFullscreen fs f A = .ok true)
    (_h5 : fetchAll B.props = .ok rawB)
    (_h6 : windowMatches fs f (decodeWords acds) rawB = true)
    (h7 : B.wid ≠ A.wid)
    (h8 : B.wid ∉ evalTrace fs f A) :
    queryFullscreen fs f (.node rw rp none (.cons A (.cons B .nil))) = .ok true
    ∧ evalTrace fs f (.node rw rp none (.cons A (.cons B .nil))) = A.wid :: evalTrace fs f A
    ∧ B.wid ∉ evalTrace fs f (.node rw rp none (.cons A (.cons B .nil))) := by
  have hq : queryFullscreen fs f (.node rw rp none (.cons A (.cons B .nil))) = .ok true := by
    simp [queryFullscreen, h1, qfChildren, h2, h3, h4]
  have ht : evalTrace fs f (.node rw rp none (.cons A (.cons B .nil)))
      = A.wid :: evalTrace fs f A := by
    simp [evalTrace, h1, traceChildren, h2, h3, h4]
  refine ⟨hq, ht, ?_⟩
  rw [ht]
  intro hmem
  rcases List.mem_cons.mp hmem with hw | hw
  · exact h7 hw
  · exact h8 hw

/-- Concrete instance of C3: the screen root lists window 2 and window
4, window 2 does not match but its child window 3 does, window 4 would
match as well, the call answers true, the trace is window 2 then window
3, and window 4 is never evaluated. -/
theorem c3_witness :
    queryFullscreen 5 ⟨none, none, none⟩ exRoot3 = .ok true
    ∧ evalTrace 5 ⟨none, none, none⟩ exRoot3 = exA.wid :: evalTrace 5 ⟨none, none, none⟩ exA
    ∧ exB.wid ∉ evalTrace 5 ⟨none, none, none⟩ exRoot3 :=
  c3_traversal_order 5 ⟨none, none, none⟩ 1 rootProps [2, 0, 0, 0] exA exB
    emptyValues matchingValues rfl (by decide) (by decide) (by decide) (by decide)
    (by decide) (by decide) (by decide)

mutual

/-- A screen walk that answered false visited the whole tree, issuing
one current-desktop fetch per window. -/
theorem cdCount_of_false (fs : Nat) (f : Filters) : ∀ t : WinTree,
    queryFullscreen fs f t = .ok false → cdCount fs f t = winCount t
  | .node w p terr ch => by
    intro h
    cases terr with
    | some e => exact absurd h (by simp [queryFullscreen])
    | none =>
      cases hncd : p.netCurrentDesktop with
      | error e => exact absurd h (by simp [queryFullscreen, hncd])
      | ok ab =>
        have h2 : qfChildren fs f (decodeWords ab) ch = .ok false := by
          simpa [queryFullscreen, hncd] using h
        simp [cdCount, winCount, hncd, cdCountChildren_of_false fs f (decodeWords ab) ch h2]

/-- A child loop that answered false visited every sibling subtree. -/
theorem cdCountChildren_of_false (fs : Nat) (f : Filters) (activeW : List Nat) :
    ∀ l : WinForest, qfChildren fs f activeW l = .ok false →
      cdCountChildren fs f activeW l = winForestCount l
  | .nil => fun _ => rfl
  | .cons c rest => by
    intro h
    cases hf : fetchAll c.props with
    | error e => exact absurd h (by simp [qfChildren, hf])
    | ok raw =>
      cases hm : windowMatches fs f activeW raw with
      | true => exact absurd h (by simp [qfChildren, hf, hm])
      | false =>
        cases hq : queryFullscreen fs f c with
        | error e => exact absurd h (by simp [qfChildren, hf, hm, hq])
        | ok b =>
          cases b with
          | true => exact absurd h (by simp [qfChildren, hf, hm, hq])
          | false =>
            have hrest : qfChildren fs f activeW rest = .ok false := by
              simpa [qfChildren, hf, hm, hq] using h
            simp [cdCountChildren, winForestCount, hf, hm, hq,
              cdCount_of_false fs f c hq,
              cdCountChildren_of_false fs f activeW rest hrest]

end

/-- C2 as stated is false on the code: the recursion re-invokes the
detection with each child as the new root and re-fetches the
current-desktop property from that child, so on the example screen the
grandchild window 3 is compared against the empty payload fetched from
its parent window 2 rather than against the value of the screen root;
the code answers false where a single root fetch shared by all depths
would answer true, and three current-desktop fetches are issued rather
than one. -/
theorem c2_counterexample :
    queryFullscreen 5 ⟨none, none, none⟩ exRoot2 = .ok false
    ∧ queryFullscreenOnce 5 ⟨none, none, none⟩ exRoot2 = .ok true
    ∧ cdCount 5 ⟨none, none, none⟩ exRoot2 = 3 := by
  refine ⟨by decide, by decide, by decide⟩

/-- C2 amended: the active-desktop value is fetched once per
query_fullscreen invocation, on that invocation root, and is re-fetched
from each descendant window as the recursion makes it a new root; a
call that answers false has issued exactly one current-desktop fetch
per window of the tree, the root included. -/
theorem c2_active_desktop_per_root (fs : Nat) (f : Filters) (t : WinTree)
    (h : queryFullscreen fs f t = .ok false) : cdCount fs f t = winCount t :=
  cdCount_of_false fs f t h

/-- Concrete instance of the amended C2: the matchless example screen
of three windows issues three current-desktop fetches. -/
theorem c2_witness :
    cdCount 5 ⟨none, none, none⟩ exRoot2 = winCount exRoot2 :=
  c2_active_desktop_per_root 5 ⟨none, none, none⟩ exRoot2 (by decide)

/-- Concrete instance of the amended C5: the five-byte payload decodes
to one word, the floored count. -/
theorem c5_witness :
    (decodeWords [1, 0, 0, 0, 9]).length = ([1, 0, 0, 0, 9] : List Nat).length / 4 :=
  c5_amended_flooring_decode [1, 0, 0, 0, 9]
